import Mathlib

/-
Verification development for the ALPACA spatial-reconstruction layer
(WENO5-HM stencil, `src/stencils/spatial_reconstruction_stencils/weno5_hm.h`).

The repository sources provide the WENO5HM class header: its coefficient
constants (`coef_smoothness_*`, `coef_weights_*`, `coef_stencils_*`), the
stencil sizes (`stencil_size_ = 6`, `downstream_stencil_size_ = 2`) and the
signature of `ApplyImplementation`, which takes a
`std::array<double, 6>` window, a `std::array<int const, 2>` of evaluation
properties and a `cell_size`.  The body of `ApplyImplementation` and the
base `Stencil` contract (`stencils/stencil.h`) are not among the sources,
so those parts are modelled from the specification (sections 4.1 and 4.2),
faithful to its five-step algorithm description.  All arithmetic is
embedded over ℚ (exact real arithmetic standing in for IEEE doubles).
-/

namespace WENO5HM

/-- Embedding of `std::array<double, stencil_size_>`: a window of six
cell-averaged values, indexed left to right. -/
abbrev StencilWindow : Type := Fin 6 → ℚ

/-- Embedding of `std::array<int const, 2>`: the per-call evaluation
properties (orientation offset and direction). -/
abbrev EvaluationProperties : Type := Fin 2 → ℤ

/-- Source constant `coef_smoothness_1_ = 13.0/12.0` (weno5_hm.h line 123). -/
def coef_smoothness_1_ : ℚ := 13/12

/-- Source constant `coef_smoothness_2_ = 0.25` (weno5_hm.h line 124). -/
def coef_smoothness_2_ : ℚ := 0.25

/-- Source constant `coef_smoothness_11_ = 1.0`. -/
def coef_smoothness_11_ : ℚ := 1

/-- Source constant `coef_smoothness_12_ = -2.0`. -/
def coef_smoothness_12_ : ℚ := -2

/-- Source constant `coef_smoothness_13_ = 1.0`. -/
def coef_smoothness_13_ : ℚ := 1

/-- Source constant `coef_smoothness_14_ = 1.0`. -/
def coef_smoothness_14_ : ℚ := 1

/-- Source constant `coef_smoothness_15_ = -4.0`. -/
def coef_smoothness_15_ : ℚ := -4

/-- Source constant `coef_smoothness_16_ = 3.0`. -/
def coef_smoothness_16_ : ℚ := 3

/-- Source constant `coef_smoothness_21_ = 1.0`. -/
def coef_smoothness_21_ : ℚ := 1

/-- Source constant `coef_smoothness_22_ = -2.0`. -/
def coef_smoothness_22_ : ℚ := -2

/-- Source constant `coef_smoothness_23_ = 1.0`. -/
def coef_smoothness_23_ : ℚ := 1

/-- Source constant `coef_smoothness_24_ = 1.0`. -/
def coef_smoothness_24_ : ℚ := 1

/-- Source constant `coef_smoothness_25_ = -1.0`. -/
def coef_smoothness_25_ : ℚ := -1

/-- Source constant `coef_smoothness_31_ = 1.0`. -/
def coef_smoothness_31_ : ℚ := 1

/-- Source constant `coef_smoothness_32_ = -2.0`. -/
def coef_smoothness_32_ : ℚ := -2

/-- Source constant `coef_smoothness_33_ = 1.0`. -/
def coef_smoothness_33_ : ℚ := 1

/-- Source constant `coef_smoothness_34_ = 3.0`. -/
def coef_smoothness_34_ : ℚ := 3

/-- Source constant `coef_smoothness_35_ = -4.0`. -/
def coef_smoothness_35_ : ℚ := -4

/-- Source constant `coef_smoothness_36_ = 1.0`. -/
def coef_smoothness_36_ : ℚ := 1

/-- Source constant `coef_weights_1_ = 0.1` (weno5_hm.h line 146). -/
def coef_weights_1_ : ℚ := 0.1

/-- Source constant `coef_weights_2_ = 0.6` (weno5_hm.h line 147). -/
def coef_weights_2_ : ℚ := 0.6

/-- Source constant `coef_weights_3_ = 0.3` (weno5_hm.h line 148). -/
def coef_weights_3_ : ℚ := 0.3

/-- Source constant `coef_stencils_1_ = 2.0/6.0` (weno5_hm.h line 150). -/
def coef_stencils_1_ : ℚ := 2/6

/-- Source constant `coef_stencils_2_ = -7.0/6.0`. -/
def coef_stencils_2_ : ℚ := -7/6

/-- Source constant `coef_stencils_3_ = 11.0/6.0`. -/
def coef_stencils_3_ : ℚ := 11/6

/-- Source constant `coef_stencils_4_ = -1.0/6.0`. -/
def coef_stencils_4_ : ℚ := -1/6

/-- Source constant `coef_stencils_5_ = 5.0/6.0`. -/
def coef_stencils_5_ : ℚ := 5/6

/-- Source constant `coef_stencils_6_ = 2.0/6.0`. -/
def coef_stencils_6_ : ℚ := 2/6

/-- Source constant `coef_stencils_7_ = 2.0/6.0`. -/
def coef_stencils_7_ : ℚ := 2/6

/-- Source constant `coef_stencils_8_ = 5.0/6.0`. -/
def coef_stencils_8_ : ℚ := 5/6

/-- Source constant `coef_stencils_9_ = -1.0/6.0` (weno5_hm.h line 158). -/
def coef_stencils_9_ : ℚ := -1/6

/-- Source constant `stencil_size_ = 6` (weno5_hm.h line 161). -/
def stencil_size_ : ℕ := 6

/-- Source constant `downstream_stencil_size_ = 2` (weno5_hm.h line 162). -/
def downstream_stencil_size_ : ℕ := 2

/-- Modelled from the spec: the regularization constant added inside the
penalization denominator of step 3 of section 4.2 ("a small positive
regularization constant must be added inside the penalization denominator
to avoid division by zero when all indicators vanish").  Its exact value is
an open question in the spec (section 9); the standard WENO5 choice 10⁻⁶
is used. -/
def epsilon_ : ℚ := 1/1000000

/-- Modelled from the spec: total-order index selection for reading the
five working values out of the six-value window (the body of
`ApplyImplementation` is not among the sources).  Out-of-range raw indices
are wrapped so the selector is total; the two valid orientations keep all
raw indices inside `[0, 5]`. -/
def idx (n : ℤ) : Fin 6 := ⟨n.toNat % 6, Nat.mod_lt _ (by norm_num)⟩

/-- Modelled from the spec: the evaluation properties select which
sub-window of the input window is upstream of the evaluation point
(section 3, EvaluationProperties).  The value `v_k` (for k = -2..2) is read
at offset `downstream_stencil_size_ + ep 0 + k * ep 1`. -/
def vOf (w : StencilWindow) (ep : EvaluationProperties) (k : ℤ) : ℚ :=
  w (idx ((downstream_stencil_size_ : ℤ) + ep 0 + k * ep 1))

/-- Modelled from the spec: the two orientations admitted by
EvaluationProperties — reconstruct the state on the left of the face
(upwind-biased, offset 0, direction +1) or on the right of the face
(downwind-biased, offset 1, direction -1). -/
def epUpwind : EvaluationProperties := ![0, 1]

/-- Modelled from the spec: the downwind (right-state) orientation. -/
def epDownwind : EvaluationProperties := ![1, -1]

/-- Modelled from the spec: the set of orientations in
EvaluationProperties (section 3: "which face-side/orientation the
reconstruction targets"). -/
def validEP (ep : EvaluationProperties) : Prop := ep = epUpwind ∨ ep = epDownwind

/-- Modelled from the spec, step 1 of section 4.2: candidate reconstruction
from the first (left-biased) three-value sub-stencil, using the fixed
coefficient triple `coef_stencils_1_ .. coef_stencils_3_`. -/
def sC1 (v1 v2 v3 : ℚ) : ℚ :=
  coef_stencils_1_ * v1 + coef_stencils_2_ * v2 + coef_stencils_3_ * v3

/-- Modelled from the spec, step 1: candidate reconstruction from the
centered sub-stencil, coefficients `coef_stencils_4_ .. coef_stencils_6_`. -/
def sC2 (v2 v3 v4 : ℚ) : ℚ :=
  coef_stencils_4_ * v2 + coef_stencils_5_ * v3 + coef_stencils_6_ * v4

/-- Modelled from the spec, step 1: candidate reconstruction from the
right-biased sub-stencil, coefficients `coef_stencils_7_ .. coef_stencils_9_`. -/
def sC3 (v3 v4 v5 : ℚ) : ℚ :=
  coef_stencils_7_ * v3 + coef_stencils_8_ * v4 + coef_stencils_9_ * v5

/-- Modelled from the spec, step 2: first difference combination of the
first sub-stencil, coefficients `coef_smoothness_11_ .. coef_smoothness_13_`. -/
def s11 (v1 v2 v3 : ℚ) : ℚ :=
  coef_smoothness_11_ * v1 + coef_smoothness_12_ * v2 + coef_smoothness_13_ * v3

/-- Modelled from the spec, step 2: second difference combination of the
first sub-stencil, coefficients `coef_smoothness_14_ .. coef_smoothness_16_`. -/
def s12 (v1 v2 v3 : ℚ) : ℚ :=
  coef_smoothness_14_ * v1 + coef_smoothness_15_ * v2 + coef_smoothness_16_ * v3

/-- Modelled from the spec, step 2: smoothness indicator of the first
(left-biased) sub-stencil. -/
def beta1 (v1 v2 v3 : ℚ) : ℚ :=
  coef_smoothness_1_ * (s11 v1 v2 v3) ^ 2 + coef_smoothness_2_ * (s12 v1 v2 v3) ^ 2

/-- Modelled from the spec, step 2: first difference combination of the
second sub-stencil, coefficients `coef_smoothness_21_ .. coef_smoothness_23_`. -/
def s21 (v2 v3 v4 : ℚ) : ℚ :=
  coef_smoothness_21_ * v2 + coef_smoothness_22_ * v3 + coef_smoothness_23_ * v4

/-- Modelled from the spec, step 2: second difference combination of the
second sub-stencil, coefficients `coef_smoothness_24_`, `coef_smoothness_25_`. -/
def s22 (v2 v4 : ℚ) : ℚ :=
  coef_smoothness_24_ * v2 + coef_smoothness_25_ * v4

/-- Modelled from the spec, step 2: smoothness indicator of the second
(centered) sub-stencil. -/
def beta2 (v2 v3 v4 : ℚ) : ℚ :=
  coef_smoothness_1_ * (s21 v2 v3 v4) ^ 2 + coef_smoothness_2_ * (s22 v2 v4) ^ 2

/-- Modelled from the spec, step 2: first difference combination of the
third sub-stencil, coefficients `coef_smoothness_31_ .. coef_smoothness_33_`. -/
def s31 (v3 v4 v5 : ℚ) : ℚ :=
  coef_smoothness_31_ * v3 + coef_smoothness_32_ * v4 + coef_smoothness_33_ * v5

/-- Modelled from the spec, step 2: second difference combination of the
third sub-stencil, coefficients `coef_smoothness_34_ .. coef_smoothness_36_`. -/
def s32 (v3 v4 v5 : ℚ) : ℚ :=
  coef_smoothness_34_ * v3 + coef_smoothness_35_ * v4 + coef_smoothness_36_ * v5

/-- Modelled from the spec, step 2: smoothness indicator of the third
(right-biased) sub-stencil. -/
def beta3 (v3 v4 v5 : ℚ) : ℚ :=
  coef_smoothness_1_ * (s31 v3 v4 v5) ^ 2 + coef_smoothness_2_ * (s32 v3 v4 v5) ^ 2

/-- Modelled from the spec, step 3: rational penalization of the first
optimal weight by its smoothness indicator, with the regularization
constant inside the denominator.  The precise rational form of the HM
modification is left open by the spec (section 9); the classical rational
penalization is used, which has every property step 3 states (w → 0 as the
indicator dominates, w → optimal weight when indicators vanish). -/
def alpha1 (b1 : ℚ) : ℚ := coef_weights_1_ / (epsilon_ + b1) ^ 2

/-- Modelled from the spec, step 3: penalized second weight. -/
def alpha2 (b2 : ℚ) : ℚ := coef_weights_2_ / (epsilon_ + b2) ^ 2

/-- Modelled from the spec, step 3: penalized third weight. -/
def alpha3 (b3 : ℚ) : ℚ := coef_weights_3_ / (epsilon_ + b3) ^ 2

/-- Modelled from the spec, step 4: first normalized nonlinear weight
(each raw weight divided by the sum of all three). -/
def omega1 (b1 b2 b3 : ℚ) : ℚ := alpha1 b1 / (alpha1 b1 + alpha2 b2 + alpha3 b3)

/-- Modelled from the spec, step 4: second normalized nonlinear weight. -/
def omega2 (b1 b2 b3 : ℚ) : ℚ := alpha2 b2 / (alpha1 b1 + alpha2 b2 + alpha3 b3)

/-- Modelled from the spec, step 4: third normalized nonlinear weight. -/
def omega3 (b1 b2 b3 : ℚ) : ℚ := alpha3 b3 / (alpha1 b1 + alpha2 b2 + alpha3 b3)

/-- Modelled from the spec, step 5: blend of the three candidate
reconstructions with the normalized nonlinear weights, as a function of
the five selected working values. -/
def coreEval (v1 v2 v3 v4 v5 : ℚ) : ℚ :=
  omega1 (beta1 v1 v2 v3) (beta2 v2 v3 v4) (beta3 v3 v4 v5) * sC1 v1 v2 v3 +
  omega2 (beta1 v1 v2 v3) (beta2 v2 v3 v4) (beta3 v3 v4 v5) * sC2 v2 v3 v4 +
  omega3 (beta1 v1 v2 v3) (beta2 v2 v3 v4) (beta3 v3 v4 v5) * sC3 v3 v4 v5

/-- Modelled from the spec (section 4.2; the body of the source function
`ApplyImplementation` declared at weno5_hm.h line 164 is not among the
sources): select the five working values according to the evaluation
properties and blend the three candidate reconstructions.  `cell_size` is
accepted for interface uniformity but unused by this variant. -/
def ApplyImplementation (w : StencilWindow) (ep : EvaluationProperties)
    (cell_size : ℚ) : ℚ :=
  coreEval (vOf w ep (-2)) (vOf w ep (-1)) (vOf w ep 0) (vOf w ep 1) (vOf w ep 2)

/-- Modelled from the spec (section 4.1; `stencils/stencil.h` is not among
the sources): the Stencil contract's `Evaluate` delegates to the concrete
variant's implementation, passing the same arguments unchanged. -/
def Evaluate (w : StencilWindow) (ep : EvaluationProperties) (cell_size : ℚ) : ℚ :=
  ApplyImplementation w ep cell_size

/-- Modelled from the spec (section 4.1): the contract's `StencilSize`
reports the variant's fixed stencil size. -/
def StencilSize : ℕ := stencil_size_

/-- Modelled from the spec (section 4.1): the contract's `DownstreamSize`
reports the variant's fixed downstream cell count. -/
def DownstreamSize : ℕ := downstream_stencil_size_

/-- Modelled from the spec (sections 4.1 and 7): the call-boundary length
contract.  At the C++ interface the window type `std::array<double, 6>`
rejects any other length; this checked wrapper makes that rejection
explicit on arbitrary-length lists — a window of the wrong length is never
truncated, padded or reinterpreted, and no value is produced from it. -/
def EvaluateChecked (l : List ℚ) (ep : EvaluationProperties) (cell_size : ℚ) :
    Option ℚ :=
  if l.length = StencilSize then
    some (Evaluate (fun i => l.getD i.val 0) ep cell_size)
  else
    none

/-- The step-discontinuity window `[1, 1, 1, 1, 5, 5]` of the spec's
discontinuity-robustness scenario (section 8). -/
def stepWindow : StencilWindow := ![1, 1, 1, 1, 5, 5]

/-- Window of cell averages of a quadratic polynomial
`p x = a x^2 + b x + c` over the unit cells `[i, i+1]`, i = 0..5. -/
def quadAvgWindow (a b c : ℚ) : StencilWindow := fun i =>
  a * ((i.val : ℚ) ^ 2 + (i.val : ℚ) + 1/3) + b * ((i.val : ℚ) + 1/2) + c

/-- Window of cell averages of the cubic `p x = x^3` over the unit cells
`[i, i+1]`, i = 0..5: the values `1/4, 15/4, 65/4, 175/4, 369/4, 671/4`. -/
def cubicAvgWindow : StencilWindow := fun i =>
  (((i.val : ℚ) + 1) ^ 4 - (i.val : ℚ) ^ 4) / 4

/-- The optimal (linear) blend of the three candidates, which reproduces
the single 5th-order reconstruction (spec section 4.2, step 3). -/
def optimalBlend (v1 v2 v3 v4 v5 : ℚ) : ℚ :=
  coef_weights_1_ * sC1 v1 v2 v3 + coef_weights_2_ * sC2 v2 v3 v4 +
    coef_weights_3_ * sC3 v3 v4 v5

/-- Smoothness indicators are nonnegative: a positive combination of two
squares. -/
theorem beta1_nonneg (v1 v2 v3 : ℚ) : 0 ≤ beta1 v1 v2 v3 := by
  unfold beta1 coef_smoothness_1_ coef_smoothness_2_
  positivity

/-- Nonnegativity of the second smoothness indicator. -/
theorem beta2_nonneg (v2 v3 v4 : ℚ) : 0 ≤ beta2 v2 v3 v4 := by
  unfold beta2 coef_smoothness_1_ coef_smoothness_2_
  positivity

/-- Nonnegativity of the third smoothness indicator. -/
theorem beta3_nonneg (v3 v4 v5 : ℚ) : 0 ≤ beta3 v3 v4 v5 := by
  unfold beta3 coef_smoothness_1_ coef_smoothness_2_
  positivity

/-- The sum of the three penalized weights is positive whenever the three
smoothness indicators are nonnegative, so the normalization never divides
by zero (spec section 7, numerical degeneracy). -/
theorem alphaSum_pos (b1 b2 b3 : ℚ) (h1 : 0 ≤ b1) (h2 : 0 ≤ b2) (h3 : 0 ≤ b3) :
    0 < alpha1 b1 + alpha2 b2 + alpha3 b3 := by
  unfold alpha1 alpha2 alpha3 coef_weights_1_ coef_weights_2_ coef_weights_3_ epsilon_
  positivity

/-- After normalization the three nonlinear weights sum to one, for any
nonnegative smoothness indicators. -/
theorem weightsSum_one (b1 b2 b3 : ℚ) (h1 : 0 ≤ b1) (h2 : 0 ≤ b2) (h3 : 0 ≤ b3) :
    omega1 b1 b2 b3 + omega2 b1 b2 b3 + omega3 b1 b2 b3 = 1 := by
  have h := alphaSum_pos b1 b2 b3 h1 h2 h3
  unfold omega1 omega2 omega3
  rw [div_add_div_same, div_add_div_same]
  exact div_self (ne_of_gt h)

/-- If all three candidate reconstructions agree on a value, the blend
returns that value (the normalized weights form a partition of unity). -/
theorem coreEval_const_candidates (v1 v2 v3 v4 v5 F : ℚ)
    (h1 : sC1 v1 v2 v3 = F) (h2 : sC2 v2 v3 v4 = F) (h3 : sC3 v3 v4 v5 = F) :
    coreEval v1 v2 v3 v4 v5 = F := by
  have hs := weightsSum_one (beta1 v1 v2 v3) (beta2 v2 v3 v4) (beta3 v3 v4 v5)
    (beta1_nonneg v1 v2 v3) (beta2_nonneg v2 v3 v4) (beta3_nonneg v3 v4 v5)
  unfold coreEval
  rw [h1, h2, h3]
  linear_combination F * hs

/-- Small index computations used when evaluating the stencil on concrete
windows. -/
theorem toNatFacts : ((0:ℤ).toNat % 6 : ℕ) = 0 ∧ ((1:ℤ).toNat % 6 : ℕ) = 1 ∧
    ((2:ℤ).toNat % 6 : ℕ) = 2 ∧ ((3:ℤ).toNat % 6 : ℕ) = 3 ∧
    ((4:ℤ).toNat % 6 : ℕ) = 4 ∧ ((5:ℤ).toNat % 6 : ℕ) = 5 :=
  ⟨rfl, rfl, rfl, rfl, rfl, rfl⟩

/-- Exact value of the reconstruction on the step window `[1,1,1,1,5,5]`
with the upwind (left-state) orientation. -/
theorem stepWindow_value :
    Evaluate stepWindow epUpwind 1 = 14336001344000036 / 14336001344000045 := by
  show coreEval 1 1 1 1 5 = _
  norm_num [coreEval, omega1, omega2, omega3, alpha1, alpha2, alpha3, beta1, beta2,
    beta3, s11, s12, s21, s22, s31, s32, sC1, sC2, sC3, coef_smoothness_1_,
    coef_smoothness_2_, coef_smoothness_11_, coef_smoothness_12_, coef_smoothness_13_,
    coef_smoothness_14_, coef_smoothness_15_, coef_smoothness_16_, coef_smoothness_21_,
    coef_smoothness_22_, coef_smoothness_23_, coef_smoothness_24_, coef_smoothness_25_,
    coef_smoothness_31_, coef_smoothness_32_, coef_smoothness_33_, coef_smoothness_34_,
    coef_smoothness_35_, coef_smoothness_36_, coef_weights_1_, coef_weights_2_,
    coef_weights_3_, coef_stencils_1_, coef_stencils_2_, coef_stencils_3_,
    coef_stencils_4_, coef_stencils_5_, coef_stencils_6_, coef_stencils_7_,
    coef_stencils_8_, coef_stencils_9_, epsilon_]

/-- Exact value of the reconstruction on the window of cell averages of
the cubic `x^3`, upwind orientation (exact face value would be 27). -/
theorem cubicWindow_value :
    Evaluate cubicAvgWindow epUpwind 1 =
      2465795042103277818771733186155000027 / 92078871220960353249318877266600001 := by
  have hv1 : vOf cubicAvgWindow epUpwind (-2) = 1/4 := by
    norm_num [vOf, idx, epUpwind, cubicAvgWindow, downstream_stencil_size_,
      toNatFacts.1]
  have hv2 : vOf cubicAvgWindow epUpwind (-1) = 15/4 := by
    norm_num [vOf, idx, epUpwind, cubicAvgWindow, downstream_stencil_size_,
      toNatFacts.2.1]
  have hv3 : vOf cubicAvgWindow epUpwind 0 = 65/4 := by
    norm_num [vOf, idx, epUpwind, cubicAvgWindow, downstream_stencil_size_,
      toNatFacts.2.2.1]
  have hv4 : vOf cubicAvgWindow epUpwind 1 = 175/4 := by
    norm_num [vOf, idx, epUpwind, cubicAvgWindow, downstream_stencil_size_,
      toNatFacts.2.2.2.1]
  have hv5 : vOf cubicAvgWindow epUpwind 2 = 369/4 := by
    norm_num [vOf, idx, epUpwind, cubicAvgWindow, downstream_stencil_size_,
      toNatFacts.2.2.2.2.1]
  simp only [Evaluate, ApplyImplementation]
  rw [hv1, hv2, hv3, hv4, hv5]
  norm_num [coreEval, omega1, omega2, omega3, alpha1, alpha2, alpha3, beta1, beta2,
    beta3, s11, s12, s21, s22, s31, s32, sC1, sC2, sC3, coef_smoothness_1_,
    coef_smoothness_2_, coef_smoothness_11_, coef_smoothness_12_, coef_smoothness_13_,
    coef_smoothness_14_, coef_smoothness_15_, coef_smoothness_16_, coef_smoothness_21_,
    coef_smoothness_22_, coef_smoothness_23_, coef_smoothness_24_, coef_smoothness_25_,
    coef_smoothness_31_, coef_smoothness_32_, coef_smoothness_33_, coef_smoothness_34_,
    coef_smoothness_35_, coef_smoothness_36_, coef_weights_1_, coef_weights_2_,
    coef_weights_3_, coef_stencils_1_, coef_stencils_2_, coef_stencils_3_,
    coef_stencils_4_, coef_stencils_5_, coef_stencils_6_, coef_stencils_7_,
    coef_stencils_8_, coef_stencils_9_, epsilon_]

/-- C1: Constant-field exactness — each of the three candidate-reconstruction
coefficient triples sums to 1, and for every window in which all six values
equal the same scalar `c`, `Evaluate` returns exactly `c`, for every
orientation in `EvaluationProperties` (the blend is the identity on
constant input). -/
theorem constant_field_exactness :
    (coef_stencils_1_ + coef_stencils_2_ + coef_stencils_3_ = 1) ∧
    (coef_stencils_4_ + coef_stencils_5_ + coef_stencils_6_ = 1) ∧
    (coef_stencils_7_ + coef_stencils_8_ + coef_stencils_9_ = 1) ∧
    ∀ (c cs : ℚ) (ep : EvaluationProperties), Evaluate (fun _ => c) ep cs = c := by
  refine ⟨by norm_num [coef_stencils_1_, coef_stencils_2_, coef_stencils_3_],
    by norm_num [coef_stencils_4_, coef_stencils_5_, coef_stencils_6_],
    by norm_num [coef_stencils_7_, coef_stencils_8_, coef_stencils_9_], ?_⟩
  intro c cs ep
  show coreEval c c c c c = c
  refine coreEval_const_candidates c c c c c c ?_ ?_ ?_
  · unfold sC1 coef_stencils_1_ coef_stencils_2_ coef_stencils_3_
    ring
  · unfold sC2 coef_stencils_4_ coef_stencils_5_ coef_stencils_6_
    ring
  · unfold sC3 coef_stencils_7_ coef_stencils_8_ coef_stencils_9_
    ring

/-- C2 counterexample: on the step window `[1,1,1,1,5,5]` with left-face
(upwind) evaluation the reconstructed value does NOT lie in the interval
`[1, 5]` — it undershoots the window minimum 1 by a tiny positive amount,
because the third normalized weight is positive and the third candidate is
1/3. -/
theorem step_window_leaves_range :
    ¬ (1 ≤ Evaluate stepWindow epUpwind 1 ∧ Evaluate stepWindow epUpwind 1 ≤ 5) := by
  rw [stepWindow_value]
  norm_num

/-- C2 (amended): on the step window `[1,1,1,1,5,5]` with left-face
(upwind) evaluation the reconstructed value lies in `[1 - 10⁻¹⁴, 5]`,
strictly below 1 but within 10⁻¹⁴ of 1 (close to 1, no overshoot towards
the discontinuity value 5). -/
theorem step_window_near_one :
    1 - 1 / 10 ^ 14 < Evaluate stepWindow epUpwind 1 ∧
    Evaluate stepWindow epUpwind 1 < 1 ∧ Evaluate stepWindow epUpwind 1 ≤ 5 := by
  rw [stepWindow_value]
  norm_num

/-- C3: Weight normalization — for every input window and orientation, the
three normalized nonlinear weights computed inside `Evaluate` (each raw
penalized weight divided by the sum of all three) sum to exactly 1. -/
theorem nonlinear_weight_normalization (w : StencilWindow) (ep : EvaluationProperties) :
    omega1 (beta1 (vOf w ep (-2)) (vOf w ep (-1)) (vOf w ep 0))
        (beta2 (vOf w ep (-1)) (vOf w ep 0) (vOf w ep 1))
        (beta3 (vOf w ep 0) (vOf w ep 1) (vOf w ep 2)) +
      omega2 (beta1 (vOf w ep (-2)) (vOf w ep (-1)) (vOf w ep 0))
        (beta2 (vOf w ep (-1)) (vOf w ep 0) (vOf w ep 1))
        (beta3 (vOf w ep 0) (vOf w ep 1) (vOf w ep 2)) +
      omega3 (beta1 (vOf w ep (-2)) (vOf w ep (-1)) (vOf w ep 0))
        (beta2 (vOf w ep (-1)) (vOf w ep 0) (vOf w ep 1))
        (beta3 (vOf w ep 0) (vOf w ep 1) (vOf w ep 2)) = 1 :=
  weightsSum_one _ _ _ (beta1_nonneg _ _ _) (beta2_nonneg _ _ _) (beta3_nonneg _ _ _)

/-- C4 counterexample: on the window of cell averages of the degree-3
polynomial `x^3` (uniform unit cells), upwind orientation, the value
returned by `Evaluate` misses the exact face value 27 by more than 1/5 —
far beyond machine precision. -/
theorem smooth_cubic_window_not_exact :
    1 / 5 < 27 - Evaluate cubicAvgWindow epUpwind 1 := by
  rw [cubicWindow_value]
  norm_num

/-- C4 (amended): for every window of cell averages of a polynomial of
degree ≤ 2 on a uniform unit grid, `Evaluate` returns exactly the
polynomial value at the face, for both orientations; for degree 3 the
optimal-weight linear blend (not the nonlinear blend) is still exact. -/
theorem smooth_quadratic_exactness :
    (∀ (a b c cs : ℚ) (ep : EvaluationProperties), validEP ep →
      Evaluate (quadAvgWindow a b c) ep cs = 9 * a + 3 * b + c) ∧
    optimalBlend (1/4) (15/4) (65/4) (175/4) (369/4) = 27 := by
  constructor
  · intro a b c cs ep hep
    rcases hep with h | h <;> subst h <;>
      simp only [Evaluate, ApplyImplementation] <;>
      refine coreEval_const_candidates _ _ _ _ _ _ ?_ ?_ ?_ <;>
      · norm_num [vOf, idx, epUpwind, epDownwind, quadAvgWindow,
          downstream_stencil_size_, sC1, sC2, sC3, coef_stencils_1_, coef_stencils_2_,
          coef_stencils_3_, coef_stencils_4_, coef_stencils_5_, coef_stencils_6_,
          coef_stencils_7_, coef_stencils_8_, coef_stencils_9_, toNatFacts.1,
          toNatFacts.2.1, toNatFacts.2.2.1, toNatFacts.2.2.2.1, toNatFacts.2.2.2.2.1,
          toNatFacts.2.2.2.2.2]
        ring
  · norm_num [optimalBlend, sC1, sC2, sC3, coef_weights_1_, coef_weights_2_,
      coef_weights_3_, coef_stencils_1_, coef_stencils_2_, coef_stencils_3_,
      coef_stencils_4_, coef_stencils_5_, coef_stencils_6_, coef_stencils_7_,
      coef_stencils_8_, coef_stencils_9_]

/-- C4 witness: the amended quadratic-exactness theorem applied at the
concrete quadratic `x^2 + x + 1` with the upwind orientation. -/
theorem smooth_quadratic_exactness_witness :
    validEP epUpwind ∧
    Evaluate (quadAvgWindow 1 1 1) epUpwind 1 = 9 * 1 + 3 * 1 + 1 :=
  ⟨Or.inl rfl, smooth_quadratic_exactness.1 1 1 1 1 epUpwind (Or.inl rfl)⟩

/-- C5: Stencil metadata — `StencilSize` is 6, `DownstreamSize` is 2, and
`Evaluate` accepts exactly the windows of `StencilSize` elements (the
checked interface produces a value precisely for length-6 windows). -/
theorem stencil_metadata :
    StencilSize = 6 ∧ DownstreamSize = 2 ∧
    ∀ (l : List ℚ) (ep : EvaluationProperties) (cs : ℚ),
      (EvaluateChecked l ep cs).isSome ↔ l.length = StencilSize := by
  refine ⟨rfl, rfl, ?_⟩
  intro l ep cs
  unfold EvaluateChecked
  split <;> rename_i h <;> simp [h]

/-- C6: Optimal linear weights — the three fixed optimal weights are 0.1,
0.6 and 0.3, and they sum to 1. -/
theorem optimal_linear_weights :
    coef_weights_1_ = 0.1 ∧ coef_weights_2_ = 0.6 ∧ coef_weights_3_ = 0.3 ∧
    coef_weights_1_ + coef_weights_2_ + coef_weights_3_ = 1 := by
  norm_num [coef_weights_1_, coef_weights_2_, coef_weights_3_]

/-- C7: Smoothness-indicator form — each of the three indicators equals
`13/12` times the square of one fixed difference combination plus `1/4`
times the square of a second one, with a distinct coefficient set per
sub-stencil (left-biased, centered, right-biased). -/
theorem smoothness_indicator_form (v1 v2 v3 v4 v5 : ℚ) :
    beta1 v1 v2 v3 = 13/12 * (v1 - 2 * v2 + v3) ^ 2 + 1/4 * (v1 - 4 * v2 + 3 * v3) ^ 2 ∧
    beta2 v2 v3 v4 = 13/12 * (v2 - 2 * v3 + v4) ^ 2 + 1/4 * (v2 - v4) ^ 2 ∧
    beta3 v3 v4 v5 = 13/12 * (v3 - 2 * v4 + v5) ^ 2 + 1/4 * (3 * v3 - 4 * v4 + v5) ^ 2 := by
  refine ⟨?_, ?_, ?_⟩ <;>
    · simp only [beta1, beta2, beta3, s11, s12, s21, s22, s31, s32,
        coef_smoothness_1_, coef_smoothness_2_, coef_smoothness_11_,
        coef_smoothness_12_, coef_smoothness_13_, coef_smoothness_14_,
        coef_smoothness_15_, coef_smoothness_16_, coef_smoothness_21_,
        coef_smoothness_22_, coef_smoothness_23_, coef_smoothness_24_,
        coef_smoothness_25_, coef_smoothness_31_, coef_smoothness_32_,
        coef_smoothness_33_, coef_smoothness_34_, coef_smoothness_35_,
        coef_smoothness_36_]
      norm_num
      try ring

/-- C8: cell_size noninterference — for every window, orientation and pair
of cell sizes, `Evaluate` returns the same value: the `cell_size` argument
is accepted but has no influence on the output of this variant. -/
theorem cell_size_noninterference (w : StencilWindow) (ep : EvaluationProperties)
    (h1 h2 : ℚ) : Evaluate w ep h1 = Evaluate w ep h2 := rfl

/-- C9: Contract-violation handling — a window whose length differs from
the stencil size is never truncated, padded or reinterpreted: the checked
interface produces no value from it, and a correct-length window is
evaluated as-is. -/
theorem window_length_contract (l : List ℚ) (ep : EvaluationProperties) (cs : ℚ) :
    (l.length ≠ stencil_size_ → EvaluateChecked l ep cs = none) ∧
    (l.length = stencil_size_ →
      EvaluateChecked l ep cs = some (Evaluate (fun i => l.getD i.val 0) ep cs)) := by
  constructor
  · intro h
    simp [EvaluateChecked, StencilSize, h]
  · intro h
    simp [EvaluateChecked, StencilSize, h]

/-- C9 witness: a three-element window is rejected (no value is produced)
and the six-element step window is evaluated unchanged. -/
theorem window_length_contract_witness :
    EvaluateChecked [1, 2, 3] epUpwind 1 = none ∧
    EvaluateChecked [1, 1, 1, 1, 5, 5] epUpwind 1 =
      some (Evaluate (fun i => [(1:ℚ), 1, 1, 1, 5, 5].getD i.val 0) epUpwind 1) :=
  ⟨(window_length_contract [1, 2, 3] epUpwind 1).1 (by decide),
    (window_length_contract [1, 1, 1, 1, 5, 5] epUpwind 1).2 (by decide)⟩

/-- C10: the evaluation-properties argument of the evaluation entry point
is exactly a fixed pair of two integers: the argument type is equivalent
to `ℤ × ℤ`, and the result of `Evaluate` depends on the argument only
through its two integer components. -/
theorem evaluation_properties_pair :
    Nonempty (EvaluationProperties ≃ ℤ × ℤ) ∧
    ∀ (w : StencilWindow) (cs : ℚ) (ep ep2 : EvaluationProperties),
      ep 0 = ep2 0 → ep 1 = ep2 1 → Evaluate w ep cs = Evaluate w ep2 cs := by
  constructor
  · exact ⟨⟨fun f => (f 0, f 1), fun p => ![p.1, p.2],
      fun f => by
        funext i
        fin_cases i <;> rfl,
      fun p => rfl⟩⟩
  · intro w cs ep ep2 h0 h1
    have hfun : ep = ep2 := by
      funext i
      fin_cases i
      · exact h0
      · exact h1
    rw [hfun]

/-- C10 witness: two syntactically different evaluation-properties values
with equal components yield the same reconstruction. -/
theorem evaluation_properties_pair_witness :
    Evaluate stepWindow epUpwind 1 =
      Evaluate stepWindow (fun i => if i.val = 0 then 0 else 1) 1 :=
  evaluation_properties_pair.2 stepWindow 1 epUpwind
    (fun i => if i.val = 0 then 0 else 1) (by decide) (by decide)

end WENO5HM
